import Mathlib

/-!
# Automated Auditorium Lighting — formal model of the playback / adapter layer

Shallow embedding of the Python sources `phase_5/playback_engine.py`,
`phase_5/scene_renderer.py`, `phase_5/color_utils.py`,
`phase_5/threejs_adapter.py`, `phase_5/server.py` and
`phase_8/dmx_adapter.py`.  Times, intensities and interpolation factors are
modelled as rationals (`ℚ`); Python dicts become association lists that keep
insertion order; fallible operations return `Option`.
-/

namespace Lighting

/-! ## Python-style primitives -/

/-- Python `max(0.0, min(1.0, x))` as used in `SceneRenderer.update_group`. -/
def clamp01 (x : ℚ) : ℚ := max 0 (min 1 x)

/-- Python `max(0.0, min(x, hi))` as used in `PlaybackEngine.seek`. -/
def clampTo (hi x : ℚ) : ℚ := max 0 (min x hi)

/-- Python `int(q)` on a float/rational: truncation toward zero. -/
def pyInt (q : ℚ) : ℤ :=
  if 0 ≤ q then ((q.num.toNat / q.den : ℕ) : ℤ)
  else -(((-q.num).toNat / q.den : ℕ) : ℤ)

/-- ASCII lower-casing of one character. -/
def lowerCh (c : Char) : Char :=
  if 'A' ≤ c && c ≤ 'Z' then Char.ofNat (c.toNat + 32) else c

/-- Python `str.lower()` restricted to the ASCII range (all inputs in this
code base are ASCII). -/
def pyLower (s : String) : String := ⟨s.data.map lowerCh⟩

/-- Python `s.startswith(pre)`. -/
def pyStartsWith (s pre : String) : Bool := pre.data.isPrefixOf s.data

/-- Whitespace characters stripped by Python `str.strip()` (ASCII subset). -/
def isPyWhitespace (c : Char) : Bool :=
  c = ' ' || c = '\t' || c = '\n' || c = '\r' || c = '\x0b' || c = '\x0c'

/-- Python `str.strip()`: drop leading and trailing whitespace. -/
def pyStrip (s : String) : String :=
  ⟨(s.data.dropWhile isPyWhitespace).reverse.dropWhile isPyWhitespace |>.reverse⟩

/-- Hex-digit test for Python `int(_, 16)`. -/
def isHexDigitCh (c : Char) : Bool :=
  ('0' ≤ c && c ≤ '9') || ('a' ≤ c && c ≤ 'f') || ('A' ≤ c && c ≤ 'F')

/-- Value of a hex digit. -/
def hexDigitVal (c : Char) : ℕ :=
  if '0' ≤ c && c ≤ '9' then c.toNat - '0'.toNat
  else if 'a' ≤ c && c ≤ 'f' then c.toNat - 'a'.toNat + 10
  else c.toNat - 'A'.toNat + 10

/-- Digit part of Python `int(_, 16)`: hex digits with single underscores
allowed between digits. Accumulates into `acc`; `none` models `ValueError`. -/
def pyHexDigits : ℕ → List Char → Option ℕ
  | acc, [] => some acc
  | acc, '_' :: c :: rest =>
      if isHexDigitCh c then pyHexDigits (acc * 16 + hexDigitVal c) rest else none
  | _, ['_'] => none
  | acc, c :: rest =>
      if isHexDigitCh c then pyHexDigits (acc * 16 + hexDigitVal c) rest else none

/-- Python `int(s, 16)`: optional surrounding whitespace, optional sign, at
least one hex digit. Returns `none` where Python raises `ValueError`. -/
def pyIntHex (s : String) : Option ℤ :=
  match (pyStrip s).data with
  | [] => none
  | '+' :: c :: rest =>
      if isHexDigitCh c then (pyHexDigits (hexDigitVal c) rest).map Int.ofNat else none
  | '-' :: c :: rest =>
      if isHexDigitCh c then (pyHexDigits (hexDigitVal c) rest).map (fun n => -(n : ℤ)) else none
  | c :: rest =>
      if isHexDigitCh c then (pyHexDigits (hexDigitVal c) rest).map Int.ofNat else none

/-- Python slice `s[i:j]` (with clamping past the end). -/
def pySlice (s : String) (i j : ℕ) : String := ⟨(s.data.drop i).take (j - i)⟩

/-- Python `s.replace(a, b)` for a single-character pattern, as used in
`get_hex_from_semantic` (`.replace(" ", "_")`). -/
def pyReplaceChar (s : String) (a b : Char) : String :=
  ⟨s.data.map (fun c => if c = a then b else c)⟩

/-! ## `phase_5/color_utils.py` -/

/-- `SEMANTIC_COLORS` dict from `color_utils.py`. -/
def SEMANTIC_COLORS : List (String × String) :=
  [("warm_white", "#FFD1A3"), ("cool_white", "#E3F3FF"), ("neutral_white", "#FFFFFF"),
   ("warm_amber", "#FFB347"), ("amber", "#FFBF00"), ("candlelight", "#FF9329"),
   ("red", "#FF0000"), ("green", "#00FF00"), ("blue", "#0000FF"),
   ("cool_blue", "#4A90E2"), ("night_blue", "#141E30"), ("cyan", "#00FFFF"),
   ("magenta", "#FF00FF"), ("purple", "#800080"), ("lavender", "#E6E6FA"),
   ("teal", "#008080"), ("orange", "#FFA500"), ("yellow", "#FFFF00"),
   ("lime", "#00FF00"), ("pink", "#FFC0CB"), ("uv", "#3D0C02"),
   ("black", "#000000"), ("off", "#000000")]

/-- Association-list lookup (Python dict `d.get(k)` / `k in d`). -/
def alget {α : Type} (l : List (String × α)) (k : String) : Option α :=
  (l.find? (fun p => p.1 = k)).map (·.2)

/-- `get_hex_from_semantic` from `color_utils.py`: semantic name → hex,
with `#FFFFFF` fallback; strings that look like hex codes pass through. -/
def get_hex_from_semantic (color_name : String) : String :=
  if color_name = "" then "#FFFFFF"
  else
    let key := pyReplaceChar (pyLower color_name) ' ' '_'
    match alget SEMANTIC_COLORS key with
    | some hex => hex
    | none =>
        if pyStartsWith key "#" && (key.length = 4 || key.length = 7) then color_name
        else "#FFFFFF"

/-! ## `phase_5/scene_renderer.py` -/

/-- `LightState` dataclass: current state of a light group. -/
structure LightState where
  group_id : String
  intensity : ℚ := 0
  color_hex : String := "#000000"
  focus_area : Option String := none
  deriving Repr, DecidableEq

/-- The renderer's `_states` dict: insertion-ordered, keyed by `group_id`. -/
abbrev RendererState : Type := List LightState

/-- `SceneRenderer.get_state`. -/
def get_state (st : RendererState) (g : String) : Option LightState :=
  st.find? (fun s => s.group_id = g)

/-- `SceneRenderer.ensure_group`: append a default (off) entry if absent. -/
def ensure_group (st : RendererState) (g : String) : RendererState :=
  match get_state st g with
  | some _ => st
  | none => st ++ [{ group_id := g }]

/-- The field updates performed by `SceneRenderer.update_group` on the
selected entry: `intensity is not None` becomes a `some` match (with the
clamp to `[0, 1]`); `if color_hex:` / `elif color_semantic:` are truthiness
tests, so the empty string behaves like `None` there; `focus_area is not
None` is again a `some` match. -/
def applyFields (intensity : Option ℚ) (color_semantic : Option String)
    (color_hex : Option String) (focus_area : Option String)
    (s0 : LightState) : LightState :=
  let s1 := match intensity with
    | some v => { s0 with intensity := clamp01 v }
    | none => s0
  let s2 := match color_hex with
    | some h =>
        if h = "" then
          match color_semantic with
          | some c => if c = "" then s1 else { s1 with color_hex := get_hex_from_semantic c }
          | none => s1
        else { s1 with color_hex := h }
    | none =>
        match color_semantic with
        | some c => if c = "" then s1 else { s1 with color_hex := get_hex_from_semantic c }
        | none => s1
  match focus_area with
  | some f => { s2 with focus_area := some f }
  | none => s2

/-- `SceneRenderer.update_group`: ensure the entry exists, then mutate it in
place (modelled as a guarded map over the entry list). -/
def update_group (st : RendererState) (g : String) (intensity : Option ℚ)
    (color_semantic : Option String) (color_hex : Option String)
    (focus_area : Option String) : RendererState :=
  (ensure_group st g).map (fun s0 =>
    if s0.group_id = g then applyFields intensity color_semantic color_hex focus_area s0
    else s0)

/-- `SceneRenderer.reset`: all lights to intensity 0 and colour `#000000`;
entries are kept. -/
def renderer_reset (st : RendererState) : RendererState :=
  st.map (fun s => { s with intensity := 0, color_hex := "#000000" })

/-! ## `phase_5/playback_engine.py` — instruction data model

`LightingInstruction` objects are JSON dicts; optional dict accesses
(`.get`) become `Option` fields, required subscript accesses
(`inst["time_window"]`) become plain fields. -/

/-- `time_window` dict. The JSON field `end` is named `stop` here because
`end` is reserved in Lean. -/
structure TimeWindow where
  start : ℚ
  stop : ℚ
  deriving Repr, DecidableEq

/-- `transition` dict: `.get("type")` and `.get("duration", 0)`. -/
structure Transition where
  type : Option String := none
  duration : Option ℚ := none
  deriving Repr, DecidableEq

/-- `parameters` dict: `.get("intensity", 0.0)`, `.get("color")`,
`.get("focus_area")`. -/
structure Params where
  intensity : Option ℚ := none
  color : Option String := none
  focus_area : Option String := none
  deriving Repr, DecidableEq

/-- One element of an instruction's `groups` list. -/
structure GroupData where
  group_id : String
  parameters : Params
  transition : Option Transition := none
  deriving Repr, DecidableEq

/-- A `LightingInstruction` dict: `.get("scene_id", "unknown")`,
`inst["time_window"]`, `.get("groups", [])`. -/
structure Inst where
  scene_id : Option String := none
  time_window : TimeWindow
  groups : List GroupData := []
  deriving Repr, DecidableEq

/-- The captured value stored in `_transition_start_states`. -/
structure TransStart where
  intensity : ℚ
  color : String
  deriving Repr, DecidableEq

/-- `_transition_start_states`: keyed by `(scene_id, group_id)`. -/
abbrev TransMem : Type := List ((String × String) × TransStart)

/-- Dict lookup in the transition memory. -/
def tmget (m : TransMem) (k : String × String) : Option TransStart :=
  (m.find? (fun p => p.1 = k)).map (·.2)

/-- Body of the `for group_data in inst.get("groups", [])` loop of
`PlaybackEngine._apply_state_at_time`: fade detection, origin capture, and
the renderer write (interpolated intensity when fading, direct write
otherwise; colour and focus are always passed through). -/
def applyGroupData (scene_id : String) (start t : ℚ)
    (st : RendererState × TransMem) (gd : GroupData) : RendererState × TransMem :=
  let (renderer, mem) := st
  let target_intensity := gd.parameters.intensity.getD 0
  let target_color_semantic := gd.parameters.color
  let target_focus := gd.parameters.focus_area
  let fadeCheck : Bool :=
    match gd.transition with
    | some tr => tr.type = some "fade" || tr.type = some "crossfade"
    | none => false
  if fadeCheck then
    let tr := gd.transition.getD {}
    let duration := tr.duration.getD 0
    let time_into_scene := t - start
    if time_into_scene < duration ∧ 0 < duration then
      -- is_fading = True; capture the start state if not already captured
      let key := (scene_id, gd.group_id)
      let mem' :=
        match tmget mem key with
        | some _ => mem
        | none =>
            match get_state renderer gd.group_id with
            | some s => mem ++ [(key, { intensity := s.intensity, color := s.color_hex })]
            | none => mem ++ [(key, { intensity := 0, color := "#000000" })]
      let fade_alpha := time_into_scene / duration
      let start_vals := (tmget mem' key).getD { intensity := 0, color := "#000000" }
      let curr_intensity :=
        start_vals.intensity + (target_intensity - start_vals.intensity) * fade_alpha
      (update_group renderer gd.group_id (some curr_intensity)
        target_color_semantic none target_focus, mem')
    else
      (update_group renderer gd.group_id (some target_intensity)
        target_color_semantic none target_focus, mem)
  else
    (update_group renderer gd.group_id (some target_intensity)
      target_color_semantic none target_focus, mem)

/-- Body of the `for inst in active_instructions` loop. -/
def applyInst (t : ℚ) (st : RendererState × TransMem) (inst : Inst) :
    RendererState × TransMem :=
  inst.groups.foldl (applyGroupData (inst.scene_id.getD "unknown") inst.time_window.start t) st

/-- Is an instruction active at time `t` (`start <= t < end`)? -/
def activeAt (t : ℚ) (inst : Inst) : Bool :=
  inst.time_window.start ≤ t && t < inst.time_window.stop

/-- `PlaybackEngine._apply_state_at_time`: filter the active instructions of
the (already sorted) list, then apply each in order. -/
def applyStateAtTime (sorted : List Inst) (t : ℚ)
    (st : RendererState × TransMem) : RendererState × TransMem :=
  (sorted.filter (activeAt t)).foldl (applyInst t) st

/-! ## `phase_5/playback_engine.py` — the engine proper

`time.time()` becomes an explicit `now` argument; callbacks only notify
external observers (exceptions are swallowed) and do not touch engine
state, so they are not part of the state. -/

/-- The mutable fields of `PlaybackEngine` (with its `SceneRenderer`). -/
structure Engine where
  renderer : RendererState := []
  instructions : List Inst := []
  sorted_instructions : List Inst := []
  is_playing : Bool := false
  is_paused : Bool := false
  start_time : ℚ := 0
  pause_time : ℚ := 0
  elapsed_time : ℚ := 0
  total_duration : ℚ := 0
  transition_start_states : TransMem := []
  deriving Repr, DecidableEq

/-- Sort key of `load_instructions`:
`x.get("time_window", {}).get("start", 0)`. -/
def startKey (a b : Inst) : Prop := a.time_window.start ≤ b.time_window.start

instance : DecidableRel startKey := fun a b =>
  inferInstanceAs (Decidable (a.time_window.start ≤ b.time_window.start))

/-- `max(i["time_window"]["end"] for i in insts)` over a nonempty list,
else `0.0` — the engine's `total_duration` computation. -/
def totalDurationOf (l : List Inst) : ℚ :=
  match l.map (fun i => i.time_window.stop) with
  | [] => 0
  | e :: es => es.foldl max e

/-- `PlaybackEngine.load_instructions`: store, stable-sort by start time,
compute the total duration. -/
def load_instructions (e : Engine) (insts : List Inst) : Engine :=
  let sorted := insts.insertionSort startKey
  { e with
    instructions := insts
    sorted_instructions := sorted
    total_duration := totalDurationOf sorted }

/-- `PlaybackEngine.play` at wall-clock time `now`. -/
def play (e : Engine) (now : ℚ) : Engine :=
  if e.is_paused then
    { e with start_time := now - e.elapsed_time, is_paused := false, is_playing := true }
  else if e.is_playing then
    { e with start_time := now, is_playing := true }
  else
    { e with
      start_time := now
      elapsed_time := 0
      renderer := renderer_reset e.renderer
      transition_start_states := []
      is_playing := true }

/-- `PlaybackEngine.pause` at wall-clock time `now`. -/
def pause (e : Engine) (now : ℚ) : Engine :=
  if e.is_playing ∧ ¬e.is_paused then
    { e with is_paused := true, pause_time := now, elapsed_time := now - e.start_time }
  else e

/-- `PlaybackEngine.stop`: stop and reset renderer and transition memory. -/
def stop (e : Engine) : Engine :=
  { e with
    is_playing := false
    is_paused := false
    elapsed_time := 0
    renderer := renderer_reset e.renderer
    transition_start_states := [] }

/-- `PlaybackEngine.seek` at wall-clock time `now`: clamp the target into
`[0, total_duration]`, clear the transition memory, render the frame. -/
def seek (e : Engine) (now t : ℚ) : Engine :=
  let elapsed := clampTo e.total_duration t
  let e1 := { e with
    elapsed_time := elapsed
    start_time := if e.is_playing ∧ ¬e.is_paused then now - elapsed else e.start_time
    transition_start_states := ([] : TransMem) }
  let rm := applyStateAtTime e1.sorted_instructions e1.elapsed_time
    (e1.renderer, e1.transition_start_states)
  { e1 with renderer := rm.1, transition_start_states := rm.2 }

/-- The dict returned by `PlaybackEngine.get_status`. -/
structure Status where
  is_playing : Bool
  is_paused : Bool
  elapsed_time : ℚ
  total_duration : ℚ
  progress : ℚ
  deriving Repr, DecidableEq

/-- `PlaybackEngine.get_status`. -/
def get_status (e : Engine) : Status :=
  { is_playing := e.is_playing
    is_paused := e.is_paused
    elapsed_time := e.elapsed_time
    total_duration := e.total_duration
    progress := if 0 < e.total_duration then e.elapsed_time / e.total_duration else 0 }

/-- `PlaybackEngine.update` at wall-clock time `now`. -/
def update (e : Engine) (now : ℚ) : Engine :=
  if e.is_playing ∧ ¬e.is_paused then
    let e1 := { e with elapsed_time := now - e.start_time }
    if e1.total_duration ≤ e1.elapsed_time then stop e1
    else
      let rm := applyStateAtTime e1.sorted_instructions e1.elapsed_time
        (e1.renderer, e1.transition_start_states)
      { e1 with renderer := rm.1, transition_start_states := rm.2 }
  else e

/-! ## `phase_5/server.py` — websocket disconnect handling

The only effect of a `WebSocketDisconnect` on the shared components is the
`except WebSocketDisconnect:` handler, which calls `engine.stop()` (and
prints). -/

/-- The `except WebSocketDisconnect` branch of `websocket_endpoint`. -/
def handleDisconnect (e : Engine) : Engine := stop e

/-! ## `phase_5/threejs_adapter.py`

`random.seed(seed)` followed by three `random.uniform` calls yields values
fully determined by `seed`; that deterministic dependence is modelled by an
arbitrary function `rng : ℕ → Pos` from seeds to generated positions. -/

/-- A 3D position `{x, y, z}`. -/
structure Pos where
  x : ℚ
  y : ℚ
  z : ℚ
  deriving Repr, DecidableEq

/-- The fixed virtual stage layout `self.positions` of `ThreeJSAdapter`. -/
def layoutPositions : List (String × Pos) :=
  [("front_wash", ⟨0, 8, 8⟩), ("back_light", ⟨0, 8, -5⟩),
   ("side_left", ⟨-8, 4, 0⟩), ("side_right", ⟨8, 4, 0⟩),
   ("center_spot", ⟨0, 10, 0⟩), ("house_lights", ⟨0, 12, 10⟩)]

/-- `seed = sum(ord(c) for c in group_id)`. -/
def sumOrd (s : String) : ℕ := (s.data.map Char.toNat).sum

/-- The auto-position cache `self._auto_positions`. -/
abbrev AutoCache : Type := List (String × Pos)

/-- `ThreeJSAdapter._get_position`: fixed layout first, then the cache,
else generate from the seeded rng and cache the result. Returns the
position together with the updated cache. -/
def getPosition (rng : ℕ → Pos) (cache : AutoCache) (g : String) :
    Pos × AutoCache :=
  match alget layoutPositions g with
  | some p => (p, cache)
  | none =>
      match alget cache g with
      | some p => (p, cache)
      | none =>
          let p := rng (sumOrd g)
          (p, cache ++ [(g, p)])

/-- A cache state reachable by the adapter: every cached entry was generated
from the seeded rng at the id's code-point sum. -/
def validCache (rng : ℕ → Pos) (cache : AutoCache) : Prop :=
  ∀ p ∈ cache, p.2 = rng (sumOrd p.1)

/-! ## `phase_8/dmx_adapter.py` -/

/-- `COLOR_MAP` from `dmx_adapter.py` (semantic name → RGB). -/
def COLOR_MAP : List (String × (ℤ × ℤ × ℤ)) :=
  [("white", (255, 255, 255)), ("warm_white", (255, 244, 229)),
   ("warm_amber", (255, 191, 0)), ("amber", (255, 126, 0)),
   ("orange", (255, 165, 0)), ("yellow", (255, 255, 0)),
   ("cool_white", (240, 248, 255)), ("steel_blue", (70, 130, 180)),
   ("lavender", (230, 230, 250)), ("deep_red", (150, 0, 50)),
   ("dark_red", (139, 0, 0)), ("red", (255, 0, 0)),
   ("deep_purple", (50, 0, 100)), ("purple", (128, 0, 128)),
   ("blue", (0, 0, 255)), ("green", (0, 255, 0)),
   ("cyan", (0, 255, 255)), ("magenta", (255, 0, 255)),
   ("pink", (255, 192, 203)), ("neutral", (255, 255, 255))]

/-- Python `color.lstrip("#")`. -/
def lstripHash (s : String) : String := ⟨s.data.dropWhile (· = '#')⟩

/-- `DMXAdapter._resolve_color`: lower/strip, `COLOR_MAP` lookup, then a
guarded 6-digit hex parse (`int(hex_val[i:i+2], 16)` for `i in (0, 2, 4)`;
any `ValueError` falls through), else white `(255, 255, 255)`. -/
def resolve_color (color : String) : ℤ × ℤ × ℤ :=
  let c := pyStrip (pyLower color)
  match alget COLOR_MAP c with
  | some rgb => rgb
  | none =>
      if pyStartsWith c "#" then
        let hex_val := lstripHash c
        match pyIntHex (pySlice hex_val 0 2), pyIntHex (pySlice hex_val 2 4),
              pyIntHex (pySlice hex_val 4 6) with
        | some r, some g, some b => (r, g, b)
        | _, _, _ => (255, 255, 255)
      else (255, 255, 255)

/-- `dmx_value = int((params.intensity / 100) * 255)` from
`DMXAdapter._create_fixture_cue` (no clamping in the source). -/
def intensity_to_dmx (percent : ℚ) : ℤ := pyInt (percent / 100 * 255)

/-- A fixture's `capabilities` dict restricted to what
`_create_fixture_cue` reads: capability name → DMX channel number. -/
abbrev Capabilities : Type := List (String × ℕ)

/-- The colour/intensity part of `DMXAdapter._create_fixture_cue`: the
`dmx_channels` dict it assembles for a non-moving-head fixture, as a list
of `(channel, value)` pairs in insertion order. -/
def create_fixture_channels (caps : Capabilities) (color : String)
    (intensity : ℚ) : List (ℕ × ℤ) :=
  let rgb := resolve_color color
  let chans : List (ℕ × ℤ) :=
    (match alget caps "red" with | some ch => [(ch, rgb.1)] | none => []) ++
    (match alget caps "green" with | some ch => [(ch, rgb.2.1)] | none => []) ++
    (match alget caps "blue" with | some ch => [(ch, rgb.2.2)] | none => [])
  match alget caps "intensity" with
  | some ch => chans ++ [(ch, intensity_to_dmx intensity)]
  | none => chans

/-! ## Observation helpers and concrete fixtures -/

/-- The rendered intensity of a group (if the group exists yet). -/
def intensityOf (st : RendererState) (g : String) : Option ℚ :=
  (get_state st g).map (·.intensity)

/-- The rendered colour of a group (if the group exists yet). -/
def colorOf (st : RendererState) (g : String) : Option String :=
  (get_state st g).map (·.color_hex)

/-- The `is_fading` condition of `_apply_state_at_time` for one group entry
of an instruction starting at `start`, sampled at `t`. -/
def isFadingAt (start t : ℚ) (gd : GroupData) : Bool :=
  match gd.transition with
  | some tr =>
      (tr.type = some "fade" || tr.type = some "crossfade") &&
        (decide (t - start < tr.duration.getD 0) && decide (0 < tr.duration.getD 0))
  | none => false

/-- The value `_apply_state_at_time` reads as fade origin for a group: the
renderer's current entry, or the `intensity 0 / #000000` default. -/
def fadeOrigin (st : RendererState) (g : String) : TransStart :=
  match get_state st g with
  | some s => { intensity := s.intensity, color := s.color_hex }
  | none => { intensity := 0, color := "#000000" }

/-- Spec scenario instruction `s1`: `front_wash` at intensity 100, colour
white, window `[0, 5]`, no transition. -/
def instS1 : Inst :=
  { scene_id := some "s1", time_window := ⟨0, 5⟩,
    groups := [{ group_id := "front_wash",
                 parameters := { intensity := some 100, color := some "white" } }] }

/-- Spec scenario instruction `s2`: `front_wash` to intensity 0, colour
off, window `[5, 10]`, fade of duration 3. -/
def instS2 : Inst :=
  { scene_id := some "s2", time_window := ⟨5, 10⟩,
    groups := [{ group_id := "front_wash",
                 parameters := { intensity := some 0, color := some "off" },
                 transition := some { type := some "fade", duration := some 3 } }] }

/-- Spec fixture instruction `A`: `front_wash` to intensity 20 over
`[0, 10]`, no transition. -/
def instA : Inst :=
  { scene_id := some "A", time_window := ⟨0, 10⟩,
    groups := [{ group_id := "front_wash", parameters := { intensity := some 20 } }] }

/-- Spec fixture instruction `B`: `front_wash` to intensity 90 over
`[5, 15]`, no transition. -/
def instB : Inst :=
  { scene_id := some "B", time_window := ⟨5, 15⟩,
    groups := [{ group_id := "front_wash", parameters := { intensity := some 90 } }] }

/-- A single fade instruction with target intensity 100 (a value the
phase-4 schema allows): group `g`, window `[0, 10]`, fade duration 4. -/
def instFade100 : Inst :=
  { scene_id := some "f", time_window := ⟨0, 10⟩,
    groups := [{ group_id := "g",
                 parameters := { intensity := some 100, color := some "red" },
                 transition := some { type := some "fade", duration := some 4 } }] }

/-- A single fade instruction with target intensity inside the renderer's
`[0, 1]` scale: group `g`, window `[0, 10]`, fade duration 4, target 1/2. -/
def instFadeHalf : Inst :=
  { scene_id := some "f", time_window := ⟨0, 10⟩,
    groups := [{ group_id := "g",
                 parameters := { intensity := some (1/2), color := some "red" },
                 transition := some { type := some "fade", duration := some 4 } }] }

/-- A concrete deterministic seed-to-position function used to instantiate
the adapter theorems (stands for the seeded `random.uniform` triple). -/
def demoRng : ℕ → Pos := fun n => ⟨(n : ℚ), (n : ℚ) + 1, 2 * (n : ℚ)⟩

/-- A single instruction with window `[0, 10]` used for seek witnesses. -/
def instW : Inst := { time_window := ⟨0, 10⟩ }

/-! ## Helper lemmas -/

unseal Rat.mul Rat.add Rat.sub Rat.inv

theorem clamp01_of_mem (x : ℚ) (h0 : 0 ≤ x) (h1 : x ≤ 1) : clamp01 x = x := by
  unfold clamp01
  rw [min_eq_right h1, max_eq_right h0]

theorem pyInt_of_nonneg (q : ℚ) (h : 0 ≤ q) : pyInt q = ⌊q⌋ := by
  unfold pyInt
  rw [if_pos h, Rat.floor_def, Int.ofNat_tdiv,
    Int.toNat_of_nonneg (Rat.num_nonneg.mpr h)]
  exact Int.tdiv_eq_ediv (Rat.num_nonneg.mpr h) (Int.ofNat_nonneg q.den)

theorem applyFields_group_id (i : Option ℚ) (cs ch fa : Option String) (s : LightState) :
    (applyFields i cs ch fa s).group_id = s.group_id := by
  unfold applyFields
  cases i <;> cases ch <;> cases cs <;> cases fa <;> dsimp <;> split_ifs <;> rfl

theorem applyFields_intensity (v : ℚ) (cs ch fa : Option String) (s : LightState) :
    (applyFields (some v) cs ch fa s).intensity = clamp01 v := by
  unfold applyFields
  cases ch <;> cases cs <;> cases fa <;> dsimp <;> split_ifs <;> rfl

theorem applyFields_color_sem (i : Option ℚ) (c : String) (hc : c ≠ "")
    (fa : Option String) (s : LightState) :
    (applyFields i (some c) none fa s).color_hex = get_hex_from_semantic c := by
  unfold applyFields
  cases i <;> cases fa <;> dsimp <;> split_ifs <;> first | rfl | exact absurd (by assumption) hc

theorem get_state_found_id (st : RendererState) (g : String) (s : LightState)
    (h : get_state st g = some s) : s.group_id = g := by
  have := List.find?_some h
  simpa using this

theorem get_state_map_preserving (st : RendererState) (q : String)
    (f : LightState → LightState) (hf : ∀ s, (f s).group_id = s.group_id) :
    get_state (st.map f) q = (get_state st q).map f := by
  induction st with
  | nil => rfl
  | cons a l ih =>
      unfold get_state at *
      by_cases h : a.group_id = q
      · rw [List.map_cons, List.find?_cons_of_pos _ (by simpa [hf] using h),
          List.find?_cons_of_pos _ (by simpa using h)]
        rfl
      · rw [List.map_cons, List.find?_cons_of_neg _ (by simpa [hf] using h),
          List.find?_cons_of_neg _ (by simpa using h)]
        exact ih

theorem get_state_ensure_self (st : RendererState) (g : String) :
    get_state (ensure_group st g) g = some ((get_state st g).getD { group_id := g }) := by
  unfold ensure_group
  cases h : get_state st g with
  | some s => simp [h]
  | none =>
      unfold get_state at h ⊢
      rw [List.find?_append, h]
      simp

theorem get_state_ensure_other (st : RendererState) (g q : String) (h : q ≠ g) :
    get_state (ensure_group st g) q = get_state st q := by
  unfold ensure_group
  cases hh : get_state st g with
  | some s => rfl
  | none =>
      unfold get_state
      rw [List.find?_append]
      cases hq : (st.find? (fun s => s.group_id = q)) with
      | some s => rfl
      | none => simp [Ne.symm h]

theorem getD_ensure_id (st : RendererState) (g : String) :
    ((get_state st g).getD { group_id := g }).group_id = g := by
  cases h : get_state st g with
  | some s => simpa using get_state_found_id st g s h
  | none => rfl

theorem get_state_update_self (st : RendererState) (g : String) (i : Option ℚ)
    (cs ch fa : Option String) :
    get_state (update_group st g i cs ch fa) g
      = some (applyFields i cs ch fa ((get_state st g).getD { group_id := g })) := by
  unfold update_group
  rw [get_state_map_preserving _ _ _ (fun s => by
    by_cases hs : s.group_id = g <;> simp [hs, applyFields_group_id])]
  rw [get_state_ensure_self]
  simp [getD_ensure_id st g]

theorem get_state_update_other (st : RendererState) (g q : String) (i : Option ℚ)
    (cs ch fa : Option String) (h : q ≠ g) :
    get_state (update_group st g i cs ch fa) q = get_state st q := by
  unfold update_group
  rw [get_state_map_preserving _ _ _ (fun s => by
    by_cases hs : s.group_id = g <;> simp [hs, applyFields_group_id])]
  rw [get_state_ensure_other st g q h]
  cases hh : get_state st q with
  | none => rfl
  | some s =>
      have hid := get_state_found_id st q s hh
      simp [hid, h]

theorem stop_spec (e : Engine) :
    (stop e).is_playing = false ∧ (stop e).is_paused = false ∧
    (stop e).elapsed_time = 0 ∧ (stop e).transition_start_states = [] ∧
    (stop e).renderer.map LightState.group_id = e.renderer.map LightState.group_id ∧
    ∀ s ∈ (stop e).renderer, s.intensity = 0 ∧ s.color_hex = "#000000" := by
  refine ⟨rfl, rfl, rfl, rfl, ?_, ?_⟩
  · show (renderer_reset e.renderer).map _ = _
    unfold renderer_reset
    rw [List.map_map]
    rfl
  · intro s hs
    have : s ∈ renderer_reset e.renderer := hs
    unfold renderer_reset at this
    obtain ⟨u, _, rfl⟩ := List.mem_map.mp this
    exact ⟨rfl, rfl⟩

theorem foldl_max_init_le (l : List ℚ) (b : ℚ) : b ≤ l.foldl max b := by
  induction l generalizing b with
  | nil => exact le_refl b
  | cons x xs ih => exact le_trans (le_max_left b x) (ih (max b x))

theorem totalDurationOf_nonneg (l : List Inst)
    (h : ∀ i ∈ l, 0 ≤ i.time_window.stop) : 0 ≤ totalDurationOf l := by
  unfold totalDurationOf
  cases l with
  | nil => simp
  | cons a as =>
      simp only [List.map_cons]
      exact le_trans (h a (by simp)) (foldl_max_init_le _ _)

theorem load_total_duration_nonneg (e : Engine) (insts : List Inst)
    (h : ∀ i ∈ insts, 0 ≤ i.time_window.stop) :
    0 ≤ (load_instructions e insts).total_duration := by
  unfold load_instructions
  refine totalDurationOf_nonneg _ (fun i hi => h i ?_)
  exact (List.perm_insertionSort startKey insts).mem_iff.mp hi

theorem alget_eq_some {α : Type} (l : List (String × α)) (k : String) (v : α)
    (h : alget l k = some v) : ∃ p ∈ l, p.1 = k ∧ p.2 = v := by
  unfold alget at h
  cases hf : l.find? (fun p => p.1 = k) with
  | none => rw [hf] at h; cases h
  | some p =>
      rw [hf] at h
      refine ⟨p, List.mem_of_find?_eq_some hf, ?_, ?_⟩
      · simpa using List.find?_some hf
      · simpa using h

theorem getPosition_of_valid (rng : ℕ → Pos) (c : AutoCache) (g : String)
    (hv : validCache rng c) (hg : alget layoutPositions g = none) :
    (getPosition rng c g).1 = rng (sumOrd g) := by
  unfold getPosition
  rw [hg]
  cases hc : alget c g with
  | none => rfl
  | some p =>
      obtain ⟨q, hq, hk, hval⟩ := alget_eq_some c g p hc
      have := hv q hq
      simp [this, hk, hval.symm]

theorem getPosition_valid_preserved (rng : ℕ → Pos) (c : AutoCache) (g : String)
    (hv : validCache rng c) : validCache rng (getPosition rng c g).2 := by
  unfold getPosition
  cases alget layoutPositions g with
  | some p => exact hv
  | none =>
      cases alget c g with
      | some p => exact hv
      | none =>
          intro p hp
          rcases List.mem_append.mp hp with h | h
          · exact hv p h
          · rw [List.mem_singleton.mp h]

/-! ## Claim theorems -/

/-- C8. After `stop()` every Scene State Entry has intensity 0 and colour
`"off"` (resolved to `#000000`); no entry is removed: the group ids in the
store are exactly those present before, and the engine is left stopped with
elapsed 0 and cleared transition memory. -/
theorem stop_resets_store (e : Engine) :
    (stop e).renderer.map LightState.group_id = e.renderer.map LightState.group_id ∧
    (∀ s ∈ (stop e).renderer,
      s.intensity = 0 ∧ s.color_hex = get_hex_from_semantic "off") ∧
    (stop e).is_playing = false ∧ (stop e).is_paused = false ∧
    (stop e).elapsed_time = 0 ∧ (stop e).transition_start_states = [] := by
  obtain ⟨h1, h2, h3, h4, h5, h6⟩ := stop_spec e
  have hoff : get_hex_from_semantic "off" = "#000000" := by decide
  exact ⟨h5, fun s hs => ⟨(h6 s hs).1, by rw [hoff]; exact (h6 s hs).2⟩, h1, h2, h3, h4⟩

/-- C5 (amended). A websocket client disconnect invokes `engine.stop()`:
after handling the disconnect the engine is in the stopped state —
`is_playing` and `is_paused` false, elapsed time 0, transition memory
cleared, every store entry at intensity 0 and colour `#000000` — with the
store's group ids preserved; the state is unchanged only if it was already
this stopped state. -/
theorem disconnect_stops_engine (e : Engine) :
    handleDisconnect e = stop e ∧
    (handleDisconnect e).is_playing = false ∧
    (handleDisconnect e).is_paused = false ∧
    (handleDisconnect e).elapsed_time = 0 ∧
    (handleDisconnect e).transition_start_states = [] ∧
    (handleDisconnect e).renderer.map LightState.group_id
      = e.renderer.map LightState.group_id ∧
    ∀ s ∈ (handleDisconnect e).renderer, s.intensity = 0 ∧ s.color_hex = "#000000" := by
  obtain ⟨h1, h2, h3, h4, h5, h6⟩ := stop_spec e
  exact ⟨rfl, h1, h2, h3, h4, h5, h6⟩

/-- C5 counterexample. From the reachable state with elapsed time 3
(instructions loaded, then `seek(3)`), handling a disconnect does not leave
the engine state unchanged: elapsed time is reset to 0. -/
theorem disconnect_changes_state_counterexample :
    (handleDisconnect (seek (load_instructions {} [instW]) 0 3)).elapsed_time
      ≠ (seek (load_instructions {} [instW]) 0 3).elapsed_time := by decide

/-- C9. After `seek(t)` on any loaded (schema-valid, i.e. nonnegative end
times) instruction set, the elapsed time reported by `get_status` equals
`t` clamped into `[0, total_duration]`, hence always lies in that interval;
no seek target is rejected. -/
theorem seek_clamps_elapsed (e : Engine) (insts : List Inst) (now t : ℚ)
    (h : ∀ i ∈ insts, 0 ≤ i.time_window.stop) :
    (get_status (seek (load_instructions e insts) now t)).elapsed_time
      = clampTo (load_instructions e insts).total_duration t ∧
    0 ≤ (get_status (seek (load_instructions e insts) now t)).elapsed_time ∧
    (get_status (seek (load_instructions e insts) now t)).elapsed_time
      ≤ (get_status (seek (load_instructions e insts) now t)).total_duration := by
  have htd := load_total_duration_nonneg e insts h
  refine ⟨rfl, le_max_left 0 _, ?_⟩
  show clampTo (load_instructions e insts).total_duration t
    ≤ (load_instructions e insts).total_duration
  exact max_le htd (min_le_right t _)

/-- C9 witness: seeking to 25 with one `[0, 10]` instruction loaded. -/
theorem seek_clamps_elapsed_witness :
    (∀ i ∈ [instW], 0 ≤ i.time_window.stop) ∧
    ((get_status (seek (load_instructions {} [instW]) 0 25)).elapsed_time
        = clampTo (load_instructions {} [instW]).total_duration 25 ∧
      0 ≤ (get_status (seek (load_instructions {} [instW]) 0 25)).elapsed_time ∧
      (get_status (seek (load_instructions {} [instW]) 0 25)).elapsed_time
        ≤ (get_status (seek (load_instructions {} [instW]) 0 25)).total_duration) :=
  ⟨by decide, seek_clamps_elapsed {} [instW] 0 25 (by decide)⟩

/-- C4 counterexample. The device adapter performs no clamping: intensity
percent 150 on a fixture with an intensity capability on channel 1 emits
DMX value 382, outside `[0, 255]`. -/
theorem dmx_no_clamp_counterexample :
    create_fixture_channels [("intensity", 1)] "white" 150 = [(1, 382)] ∧
    ¬((382 : ℤ) ≤ 255) := by decide

/-- C4 (amended). No clamp is applied by the adapter; the phase-4 model
already restricts the percent to `[0, 100]` (rejecting, not clamping,
out-of-range values). For every percent in `[0, 100]` the emitted DMX
intensity value `int(percent / 100 * 255)` is the truncated linear map and
lies in `[0, 255]`; percents outside `[0, 100]` map outside `[0, 255]`. -/
theorem dmx_intensity_range (caps : Capabilities) (color : String) (p : ℚ)
    (ch : ℕ) (hch : alget caps "intensity" = some ch)
    (h0 : 0 ≤ p) (h1 : p ≤ 100) :
    (ch, intensity_to_dmx p) ∈ create_fixture_channels caps color p ∧
    0 ≤ intensity_to_dmx p ∧ intensity_to_dmx p ≤ 255 := by
  have hq0 : (0 : ℚ) ≤ p / 100 * 255 := by positivity
  have hq1 : p / 100 * 255 ≤ 255 := by linarith
  have hfl : intensity_to_dmx p = ⌊p / 100 * 255⌋ := pyInt_of_nonneg _ hq0
  refine ⟨?_, ?_, ?_⟩
  · unfold create_fixture_channels
    rw [hch]
    exact List.mem_append_right _ (List.mem_singleton.mpr rfl)
  · rw [hfl]
    exact Int.floor_nonneg.mpr hq0
  · rw [hfl]
    calc ⌊p / 100 * 255⌋ ≤ ⌊(255 : ℚ)⌋ := Int.floor_le_floor hq1
    _ = 255 := by norm_num

/-- C4 witness: percent 40 on intensity channel 5 emits a value in
`[0, 255]`. -/
theorem dmx_intensity_range_witness :
    alget [("intensity", 5)] "intensity" = some 5 ∧ (0 : ℚ) ≤ 40 ∧ (40 : ℚ) ≤ 100 ∧
    ((5, intensity_to_dmx 40) ∈ create_fixture_channels [("intensity", 5)] "red" 40 ∧
      0 ≤ intensity_to_dmx 40 ∧ intensity_to_dmx 40 ≤ 255) :=
  ⟨by decide, by decide, by decide,
    dmx_intensity_range [("intensity", 5)] "red" 40 5 (by decide) (by decide) (by decide)⟩

/-- C6 counterexample. `"#zzzzzz"` is neither a known semantic colour name
nor a well-formed hex code, yet the display resolver returns it unchanged
instead of the full-white fallback. -/
theorem resolve_color_hexlike_counterexample :
    get_hex_from_semantic "#zzzzzz" = "#zzzzzz" ∧ "#zzzzzz" ≠ "#FFFFFF" := by decide

/-- C6 (amended). Unknown colour names that do not look hex-like resolve to
full white and never to an error or black: the display resolver returns
`#FFFFFF` for any input whose normalised key is not in `SEMANTIC_COLORS`
and does not start with `#` with length 4 or 7 (hex-looking strings pass
through unchanged even when malformed); the device resolver returns
`(255, 255, 255)` for any input not in `COLOR_MAP` that does not start
with `#`, and also when the hex parse fails, as for `"not_a_real_color"`
and `"#zzzzzz"`. -/
theorem resolve_color_fallback (s t : String)
    (h1 : alget SEMANTIC_COLORS (pyReplaceChar (pyLower s) ' ' '_') = none)
    (h2 : (pyStartsWith (pyReplaceChar (pyLower s) ' ' '_') "#"
      && ((pyReplaceChar (pyLower s) ' ' '_').length = 4
        || (pyReplaceChar (pyLower s) ' ' '_').length = 7)) = false)
    (h3 : alget COLOR_MAP (pyStrip (pyLower t)) = none)
    (h4 : pyStartsWith (pyStrip (pyLower t)) "#" = false) :
    get_hex_from_semantic s = "#FFFFFF" ∧
    resolve_color t = (255, 255, 255) ∧
    get_hex_from_semantic "not_a_real_color" = "#FFFFFF" ∧
    resolve_color "not_a_real_color" = (255, 255, 255) ∧
    resolve_color "#zzzzzz" = (255, 255, 255) := by
  refine ⟨?_, ?_, by decide, by decide, by decide⟩
  · unfold get_hex_from_semantic
    by_cases hs : s = ""
    · rw [if_pos hs]
    · rw [if_neg hs]
      simp only [h1, h2]
      rfl
  · unfold resolve_color
    simp only [h3, h4]
    rfl

/-- C6 witness: the concrete unknown name of the spec. -/
theorem resolve_color_fallback_witness :
    alget SEMANTIC_COLORS
        (pyReplaceChar (pyLower "not_a_real_color") ' ' '_') = none ∧
    (get_hex_from_semantic "not_a_real_color" = "#FFFFFF" ∧
      resolve_color "not_a_real_color" = (255, 255, 255) ∧
      get_hex_from_semantic "not_a_real_color" = "#FFFFFF" ∧
      resolve_color "not_a_real_color" = (255, 255, 255) ∧
      resolve_color "#zzzzzz" = (255, 255, 255)) :=
  ⟨by decide,
    resolve_color_fallback "not_a_real_color" "not_a_real_color"
      (by decide) (by decide) (by decide) (by decide)⟩

/-- C7. For a group id absent from the fixed layout table, the generated
position is the deterministic function `rng ∘ sumOrd` of the id alone:
any two invocations — against any reachable caches (same run, repeated
call, or a fresh run) — return the same position, and the cache stays
consistent. -/
theorem auto_position_deterministic (rng : ℕ → Pos) (c₁ c₂ : AutoCache)
    (g : String) (hv₁ : validCache rng c₁) (hv₂ : validCache rng c₂)
    (hg : alget layoutPositions g = none) :
    (getPosition rng c₁ g).1 = rng (sumOrd g) ∧
    (getPosition rng c₂ g).1 = (getPosition rng c₁ g).1 ∧
    (getPosition rng (getPosition rng c₁ g).2 g).1 = (getPosition rng c₁ g).1 ∧
    validCache rng (getPosition rng c₁ g).2 := by
  have e₁ := getPosition_of_valid rng c₁ g hv₁ hg
  have e₂ := getPosition_of_valid rng c₂ g hv₂ hg
  have hpres := getPosition_valid_preserved rng c₁ g hv₁
  have e₃ := getPosition_of_valid rng (getPosition rng c₁ g).2 g hpres hg
  exact ⟨e₁, by rw [e₁, e₂], by rw [e₁, e₃], hpres⟩

/-- C7 witness: a fresh cache and the unrecognised id `spot_7`. -/
theorem auto_position_deterministic_witness :
    validCache demoRng [] ∧ alget layoutPositions "spot_7" = none ∧
    (getPosition demoRng [] "spot_7").1 = demoRng (sumOrd "spot_7") := by
  have hv : validCache demoRng [] := by intro p hp; cases hp
  exact ⟨hv, by decide,
    (auto_position_deterministic demoRng [] [] "spot_7" hv hv (by decide)).1⟩

/-- C10. Two distinct unrecognised group ids whose code-point sums agree
(e.g. anagrams) receive identical generated positions, in any runs: the
position depends on the id only through `sumOrd`. -/
theorem anagram_positions_equal (rng : ℕ → Pos) (c₁ c₂ : AutoCache)
    (g₁ g₂ : String) (hv₁ : validCache rng c₁) (hv₂ : validCache rng c₂)
    (h₁ : alget layoutPositions g₁ = none) (h₂ : alget layoutPositions g₂ = none)
    (hsum : sumOrd g₁ = sumOrd g₂) :
    (getPosition rng c₁ g₁).1 = (getPosition rng c₂ g₂).1 := by
  rw [getPosition_of_valid rng c₁ g₁ hv₁ h₁, getPosition_of_valid rng c₂ g₂ hv₂ h₂, hsum]

/-- C10 witness: the anagram pair `"ab"` / `"ba"`. -/
theorem anagram_positions_equal_witness :
    "ab" ≠ "ba" ∧ sumOrd "ab" = sumOrd "ba" ∧
    (getPosition demoRng [] "ab").1 = (getPosition demoRng [] "ba").1 := by
  have hv : validCache demoRng [] := by intro p hp; cases hp
  exact ⟨by decide, by decide,
    anagram_positions_equal demoRng [] [] "ab" "ba" hv hv (by decide) (by decide) (by decide)⟩

/-! ## Last-writer-wins machinery (C2) -/

theorem tmget_singleton (k : String × String) (v : TransStart) :
    tmget [(k, v)] k = some v := by
  simp [tmget]

theorem applyGroupData_other (sid : String) (s t : ℚ)
    (st : RendererState × TransMem) (gd : GroupData) (q : String)
    (h : gd.group_id ≠ q) :
    get_state (applyGroupData sid s t st gd).1 q = get_state st.1 q := by
  obtain ⟨R, M⟩ := st
  unfold applyGroupData
  dsimp only
  split_ifs <;> exact get_state_update_other _ _ _ _ _ _ _ (Ne.symm h)

theorem foldl_groups_no_write (sid : String) (s t : ℚ) (gds : List GroupData)
    (st : RendererState × TransMem) (q : String)
    (h : ∀ gd ∈ gds, gd.group_id ≠ q) :
    get_state ((gds.foldl (applyGroupData sid s t) st)).1 q = get_state st.1 q := by
  induction gds generalizing st with
  | nil => rfl
  | cons gd rest ih =>
      rw [List.foldl_cons, ih _ (fun x hx => h x (List.mem_cons_of_mem gd hx))]
      exact applyGroupData_other sid s t st gd q (h gd (List.mem_cons_self gd rest))

theorem applyInst_no_write (t : ℚ) (st : RendererState × TransMem) (i : Inst)
    (q : String) (h : ∀ gd ∈ i.groups, gd.group_id ≠ q) :
    get_state (applyInst t st i).1 q = get_state st.1 q :=
  foldl_groups_no_write _ _ _ i.groups st q h

theorem foldl_insts_no_write (t : ℚ) (insts : List Inst)
    (st : RendererState × TransMem) (q : String)
    (h : ∀ i ∈ insts, ∀ gd ∈ i.groups, gd.group_id ≠ q) :
    get_state ((insts.foldl (applyInst t) st)).1 q = get_state st.1 q := by
  induction insts generalizing st with
  | nil => rfl
  | cons i rest ih =>
      rw [List.foldl_cons, ih _ (fun x hx => h x (List.mem_cons_of_mem i hx))]
      exact applyInst_no_write t st i q (h i (List.mem_cons_self i rest))

theorem applyGroupData_direct (sid : String) (s t : ℚ)
    (st : RendererState × TransMem) (gd : GroupData)
    (h : isFadingAt s t gd = false) :
    applyGroupData sid s t st gd
      = (update_group st.1 gd.group_id (some (gd.parameters.intensity.getD 0))
          gd.parameters.color none gd.parameters.focus_area, st.2) := by
  obtain ⟨R, M⟩ := st
  unfold isFadingAt at h
  unfold applyGroupData
  dsimp only
  cases htr : gd.transition with
  | none => simp
  | some tr =>
      rw [htr] at h
      dsimp only at h
      simp only [Option.getD_some]
      cases hty : (decide (tr.type = some "fade") || decide (tr.type = some "crossfade")) with
      | false => simp [hty]
      | true =>
          rw [hty, Bool.true_and] at h
          have hcond : ¬(t - s < tr.duration.getD 0 ∧ 0 < tr.duration.getD 0) := by
            intro hand
            rw [decide_eq_true hand.1, decide_eq_true hand.2] at h
            cases h
          simp [hty, hcond]

/-- C2. Last writer wins: whenever the final group entry `gd` (for group
`g`) of the last active instruction `B` writing `g` at time `t` is not in
an active fade, the rendered state of `g` after `_apply_state_at_time` is
exactly the state written by that entry — intensity is the clamped target
of `gd`, and its colour (when given and nonempty) is the resolved target
colour — regardless of any earlier active instructions. -/
theorem last_writer_wins (eng : Engine) (insts : List Inst) (t : ℚ)
    (g : String) (R : RendererState) (M : TransMem)
    (pre post : List Inst) (B : Inst) (gpre gpost : List GroupData)
    (gd : GroupData)
    (hsplit : ((load_instructions eng insts).sorted_instructions).filter (activeAt t)
      = pre ++ B :: post)
    (hB : B.groups = gpre ++ gd :: gpost)
    (hgd : gd.group_id = g)
    (hgpost : ∀ x ∈ gpost, x.group_id ≠ g)
    (hpost : ∀ i ∈ post, ∀ x ∈ i.groups, x.group_id ≠ g)
    (hnf : isFadingAt B.time_window.start t gd = false) :
    intensityOf (applyStateAtTime (load_instructions eng insts).sorted_instructions t (R, M)).1 g
      = some (clamp01 (gd.parameters.intensity.getD 0)) ∧
    ∀ c, gd.parameters.color = some c → c ≠ "" →
      colorOf (applyStateAtTime (load_instructions eng insts).sorted_instructions t (R, M)).1 g
        = some (get_hex_from_semantic c) := by
  unfold applyStateAtTime
  rw [hsplit, List.foldl_append, List.foldl_cons]
  set stPre := pre.foldl (applyInst t) (R, M) with hstPre
  have hwrite :
      get_state (post.foldl (applyInst t) (applyInst t stPre B)).1 g
        = get_state (applyInst t stPre B).1 g :=
    foldl_insts_no_write t post (applyInst t stPre B) g hpost
  have hinstB :
      get_state (applyInst t stPre B).1 g
        = get_state (applyGroupData (B.scene_id.getD "unknown") B.time_window.start t
            (gpre.foldl (applyGroupData (B.scene_id.getD "unknown") B.time_window.start t) stPre)
            gd).1 g := by
    unfold applyInst
    rw [hB, List.foldl_append, List.foldl_cons]
    exact foldl_groups_no_write _ _ _ gpost _ g hgpost
  set stMid := gpre.foldl (applyGroupData (B.scene_id.getD "unknown") B.time_window.start t) stPre
  have hdirect := applyGroupData_direct (B.scene_id.getD "unknown") B.time_window.start t
    stMid gd hnf
  have hsome :
      get_state (applyGroupData (B.scene_id.getD "unknown") B.time_window.start t stMid gd).1 g
        = some (applyFields (some (gd.parameters.intensity.getD 0)) gd.parameters.color none
            gd.parameters.focus_area ((get_state stMid.1 g).getD { group_id := g })) := by
    rw [hdirect]
    dsimp only
    rw [← hgd]
    exact get_state_update_self stMid.1 gd.group_id _ _ _ _
  constructor
  · unfold intensityOf
    rw [hwrite, hinstB, hsome]
    simp [applyFields_intensity]
  · intro c hc hcne
    unfold colorOf
    rw [hwrite, hinstB, hsome, hc]
    simp [applyFields_color_sem _ c hcne]

/-- C2 witness: the two-instruction fixture of the spec — A writes
`front_wash` intensity 20 over `[0, 10]`, B writes intensity 90 over
`[5, 15]`; at `t = 7` the rendered value is the one written by B. -/
theorem last_writer_wins_witness :
    ((load_instructions {} [instA, instB]).sorted_instructions).filter (activeAt 7)
      = [instA] ++ instB :: [] ∧
    intensityOf (applyStateAtTime
        (load_instructions {} [instA, instB]).sorted_instructions 7 ([], [])).1 "front_wash"
      = some (clamp01 ((instB.groups.get ⟨0, by decide⟩).parameters.intensity.getD 0)) := by
  refine ⟨by decide, ?_⟩
  exact (last_writer_wins {} [instA, instB] 7 "front_wash" [] [] [instA] []
    instB [] [] (instB.groups.get ⟨0, by decide⟩)
    (by decide) (by decide) (by decide)
    (by intro x hx; cases hx) (by intro i hi; cases hi) (by decide)).1

/-! ## Fade interpolation machinery (C1, C3) -/

theorem tmget_append_self (M : TransMem) (k : String × String) (v : TransStart)
    (h : tmget M k = none) : tmget (M ++ [(k, v)]) k = some v := by
  unfold tmget at h ⊢
  cases hf : M.find? (fun p => p.1 = k) with
  | some p => rw [hf] at h; cases h
  | none =>
      rw [List.find?_append, hf]
      simp

theorem fadeOrigin_bounds (R : RendererState) (g : String)
    (hR : ∀ ls ∈ R, 0 ≤ ls.intensity ∧ ls.intensity ≤ 1) :
    0 ≤ (fadeOrigin R g).intensity ∧ (fadeOrigin R g).intensity ≤ 1 := by
  unfold fadeOrigin
  cases hgs : get_state R g with
  | none => exact ⟨le_refl 0, by norm_num⟩
  | some ls =>
      have : ls ∈ R := List.mem_of_find?_eq_some hgs
      exact hR ls this

theorem applyGroupData_fading (sid : String) (s t : ℚ) (R : RendererState)
    (M : TransMem) (gd : GroupData)
    (h : isFadingAt s t gd = true) (hM : tmget M (sid, gd.group_id) = none) :
    applyGroupData sid s t (R, M) gd
      = (update_group R gd.group_id
          (some ((fadeOrigin R gd.group_id).intensity
            + (gd.parameters.intensity.getD 0 - (fadeOrigin R gd.group_id).intensity)
              * ((t - s) / (gd.transition.getD {}).duration.getD 0)))
          gd.parameters.color none gd.parameters.focus_area,
         M ++ [((sid, gd.group_id), fadeOrigin R gd.group_id)]) := by
  unfold isFadingAt at h
  unfold applyGroupData
  dsimp only
  cases htr : gd.transition with
  | none => rw [htr] at h; cases h
  | some tr =>
      rw [htr] at h
      dsimp only at h
      rw [Bool.and_eq_true, Bool.and_eq_true] at h
      have hty := h.1
      have hc1 : t - s < tr.duration.getD 0 := of_decide_eq_true h.2.1
      have hc2 : 0 < tr.duration.getD 0 := of_decide_eq_true h.2.2
      simp only [Option.getD_some]
      rw [if_pos hty, if_pos ⟨hc1, hc2⟩, hM]
      unfold fadeOrigin
      cases hgs : get_state R gd.group_id with
      | none =>
          rw [tmget_append_self M (sid, gd.group_id) _ hM]
          rfl
      | some ls =>
          rw [tmget_append_self M (sid, gd.group_id) _ hM]
          rfl

theorem applyStateAtTime_single (inst : Inst) (t : ℚ)
    (st : RendererState × TransMem) (h : activeAt t inst = true) :
    applyStateAtTime [inst] t st = applyInst t st inst := by
  unfold applyStateAtTime
  rw [List.filter_cons, if_pos h]
  rfl

/-- C1 counterexample. For the single fade instruction with target
intensity 100 (a value legal for the phase-4 schema) played from an empty
renderer, the rendered intensity at the fade midpoint `t = s + d/2 = 2` is
the clamp 1, not the midpoint 50 of origin 0 and target 100; and past the
fade (`t = 5`) it is 1, not the target 100. -/
theorem fade_unclamped_counterexample :
    intensityOf (applyStateAtTime [instFade100] 2 ([], [])).1 "g" = some 1 ∧
    (((fadeOrigin ([] : RendererState) "g").intensity + 100) / 2 = 50 ∧ (1 : ℚ) ≠ 50) ∧
    (intensityOf (applyStateAtTime [instFade100] 5 ([], [])).1 "g" = some 1 ∧
      (1 : ℚ) ≠ 100) := by decide

/-- C1 (amended). For a single non-overlapping fade instruction of duration
`d > 0` starting at `s` whose target intensity lies in the renderer's
`[0, 1]` scale (the renderer clamps stored intensities into `[0, 1]`),
applying the engine state at time `t` (with empty transition memory, over
any renderer state with in-range intensities) renders: the captured
pre-fade origin at `t = s`; exactly the midpoint of origin and target at
`t = s + d/2`; exactly the target for every `s + d ≤ t < end`; and
throughout `[s, end)` only intensity is interpolated while the colour is
set immediately to the resolved target colour. -/
theorem fade_interpolation (sid g : String) (s e d target : ℚ) (c : String)
    (fa : Option String) (R : RendererState) (inst : Inst) (gd : GroupData)
    (hgd : gd = { group_id := g,
                  parameters := { intensity := some target, color := some c, focus_area := fa },
                  transition := some { type := some "fade", duration := some d } })
    (hinst : inst = { scene_id := some sid, time_window := ⟨s, e⟩, groups := [gd] })
    (hd : 0 < d) (hde : s + d ≤ e)
    (htgt0 : 0 ≤ target) (htgt1 : target ≤ 1) (hcne : c ≠ "")
    (hR : ∀ ls ∈ R, 0 ≤ ls.intensity ∧ ls.intensity ≤ 1) :
    intensityOf (applyStateAtTime [inst] s (R, [])).1 g
      = some ((fadeOrigin R g).intensity) ∧
    intensityOf (applyStateAtTime [inst] (s + d / 2) (R, [])).1 g
      = some (((fadeOrigin R g).intensity + target) / 2) ∧
    (∀ t, s + d ≤ t → t < e →
      intensityOf (applyStateAtTime [inst] t (R, [])).1 g = some target) ∧
    (∀ t, s ≤ t → t < e →
      colorOf (applyStateAtTime [inst] t (R, [])).1 g
        = some (get_hex_from_semantic c)) := by
  obtain ⟨ho0, ho1⟩ := fadeOrigin_bounds R g hR
  have hse : s < e := by linarith
  have hact : ∀ t, s ≤ t → t < e → activeAt t inst = true := by
    intro t h1 h2
    rw [hinst]
    unfold activeAt
    dsimp only
    rw [decide_eq_true h1, decide_eq_true h2]
    rfl
  have hsingle : ∀ t, s ≤ t → t < e →
      applyStateAtTime [inst] t (R, []) = applyGroupData sid s t (R, []) gd := by
    intro t h1 h2
    rw [applyStateAtTime_single inst t (R, []) (hact t h1 h2)]
    unfold applyInst
    rw [hinst]
    dsimp only [Option.getD_some]
    rfl
  have hfade : ∀ t, s ≤ t → t - s < d →
      applyGroupData sid s t (R, []) gd
        = (update_group R g
            (some ((fadeOrigin R g).intensity
              + (target - (fadeOrigin R g).intensity) * ((t - s) / d)))
            (some c) none fa,
           [((sid, g), fadeOrigin R g)]) := by
    intro t h1 h2
    have hf : isFadingAt s t gd = true := by
      rw [hgd]
      unfold isFadingAt
      dsimp only [Option.getD_some]
      rw [decide_eq_true h2, decide_eq_true hd]
      rfl
    have := applyGroupData_fading sid s t R [] gd hf rfl
    rw [this, hgd]
    simp only [Option.getD_some, List.nil_append]
  have hint : ∀ v, intensityOf (update_group R g (some v) (some c) none fa) g
      = some (clamp01 v) := by
    intro v
    unfold intensityOf
    rw [get_state_update_self]
    simp [applyFields_intensity]
  have hcol : ∀ v, colorOf (update_group R g (some v) (some c) none fa) g
      = some (get_hex_from_semantic c) := by
    intro v
    unfold colorOf
    rw [get_state_update_self]
    simp [applyFields_color_sem _ c hcne]
  refine ⟨?_, ?_, ?_, ?_⟩
  · -- t = s : alpha = 0, rendered = origin
    rw [hsingle s (le_refl s) hse,
      hfade s (le_refl s) (by simpa using hd)]
    dsimp only
    rw [hint]
    have : (fadeOrigin R g).intensity
        + (target - (fadeOrigin R g).intensity) * ((s - s) / d)
        = (fadeOrigin R g).intensity := by ring_nf
    rw [this, clamp01_of_mem _ ho0 ho1]
  · -- t = s + d/2 : alpha = 1/2, rendered = midpoint
    have h1 : s ≤ s + d / 2 := by linarith
    have h2 : s + d / 2 - s < d := by linarith
    have h3 : s + d / 2 < e := by linarith
    rw [hsingle (s + d / 2) h1 h3, hfade (s + d / 2) h1 h2]
    dsimp only
    rw [hint]
    have hv : (fadeOrigin R g).intensity
        + (target - (fadeOrigin R g).intensity) * ((s + d / 2 - s) / d)
        = ((fadeOrigin R g).intensity + target) / 2 := by
      field_simp
      ring
    rw [hv, clamp01_of_mem _ (by linarith) (by linarith)]
  · -- s + d ≤ t < e : direct write of the target
    intro t h1 h2
    have hs : s ≤ t := by linarith
    have hnf : isFadingAt s t gd = false := by
      rw [hgd]
      unfold isFadingAt
      dsimp only [Option.getD_some]
      have : ¬(t - s < d) := by linarith
      rw [decide_eq_false this]
      simp
    rw [hsingle t hs h2, applyGroupData_direct sid s t (R, []) gd hnf, hgd]
    dsimp only [Option.getD_some]
    rw [hint, clamp01_of_mem _ htgt0 htgt1]
  · -- colour snaps to the resolved target throughout [s, e)
    intro t h1 h2
    rw [hsingle t h1 h2]
    by_cases hf : t - s < d
    · rw [hfade t h1 hf]
      dsimp only
      rw [hcol]
    · have hnf : isFadingAt s t gd = false := by
        rw [hgd]
        unfold isFadingAt
        dsimp only [Option.getD_some]
        rw [decide_eq_false hf]
        simp
      rw [applyGroupData_direct sid s t (R, []) gd hnf, hgd]
      dsimp only
      rw [hcol]

/-- C1 witness: the single fade instruction `instFadeHalf` (target 1/2,
window `[0, 10]`, duration 4) from an empty renderer. -/
theorem fade_interpolation_witness :
    ((0 : ℚ) < 4 ∧ (0 : ℚ) + 4 ≤ 10 ∧ (0 : ℚ) ≤ 1 / 2 ∧ (1 : ℚ) / 2 ≤ 1) ∧
    (intensityOf (applyStateAtTime [instFadeHalf] 0 ([], [])).1 "g"
        = some ((fadeOrigin [] "g").intensity) ∧
      intensityOf (applyStateAtTime [instFadeHalf] ((0 : ℚ) + 4 / 2) ([], [])).1 "g"
        = some (((fadeOrigin [] "g").intensity + 1 / 2) / 2) ∧
      (∀ t, (0 : ℚ) + 4 ≤ t → t < 10 →
        intensityOf (applyStateAtTime [instFadeHalf] t ([], [])).1 "g" = some (1 / 2)) ∧
      (∀ t, (0 : ℚ) ≤ t → t < 10 →
        colorOf (applyStateAtTime [instFadeHalf] t ([], [])).1 "g"
          = some (get_hex_from_semantic "red"))) :=
  ⟨⟨by norm_num, by norm_num, by norm_num, by norm_num⟩,
    fade_interpolation "f" "g" 0 10 4 (1 / 2) "red" none [] instFadeHalf
      { group_id := "g",
        parameters := { intensity := some (1 / 2), color := some "red", focus_area := none },
        transition := some { type := some "fade", duration := some 4 } }
      rfl rfl (by norm_num) (by norm_num) (by norm_num) (by norm_num)
      (by decide) (by intro ls hls; cases hls)⟩

/-- C3 counterexample. In the end-to-end scenario, the rendered
`front_wash` intensity at `t = 6` is `2/3` (the renderer clamps the stored
intensity to `[0, 1]`, so the fade interpolates from 1, one third of the
way toward 0), not approximately 33 as the claim states. -/
theorem endtoend_t6_counterexample :
    intensityOf (applyStateAtTime
        (load_instructions {} [instS1, instS2]).sorted_instructions 6
        (applyStateAtTime (load_instructions {} [instS1, instS2]).sorted_instructions 0
          ([], []))).1 "front_wash" = some (2 / 3) ∧
    ¬((30 : ℚ) ≤ 2 / 3) := by decide

/-- C3 (amended). Playing the two-instruction scenario from `t = 0`: the
stored intensity during `s1` is the clamp of 100, i.e. 1; at `t = 6` the
fade of `s2` has progressed `(6 − 5)/3 = 1/3` of the way, rendering
intensity `2/3` (interpolating downward from 1 toward 0); at `t = 9`,
past the fade, the intensity is exactly 0. -/
theorem endtoend_fade_values :
    intensityOf (applyStateAtTime
        (load_instructions {} [instS1, instS2]).sorted_instructions 0 ([], [])).1
        "front_wash" = some 1 ∧
    intensityOf (applyStateAtTime
        (load_instructions {} [instS1, instS2]).sorted_instructions 6
        (applyStateAtTime (load_instructions {} [instS1, instS2]).sorted_instructions 0
          ([], []))).1 "front_wash" = some (2 / 3) ∧
    intensityOf (applyStateAtTime
        (load_instructions {} [instS1, instS2]).sorted_instructions 9
        (applyStateAtTime (load_instructions {} [instS1, instS2]).sorted_instructions 6
          (applyStateAtTime (load_instructions {} [instS1, instS2]).sorted_instructions 0
            ([], [])))).1 "front_wash" = some 0 := by decide

end Lighting
